import Mathlib

/-!
# whatdb: the caching facade over the What.CD API client

A shallow embedding of `whatdb.go`.  The file has one constructor, `NewWhatDB`,
one interface, `WhatDB`, and one struct, `WhatDBStruct`, whose 28 methods are
the interface's method set.

The two collaborators come from other packages and are taken as parameters:

* the API client (`whatapi.WhatAPI`, built by `whatapi.NewWhatAPI`), whose
  operations act on a state `σ`: the session and the remote service;
* the store (`*sqlx.DB`, opened by `sqlx.Connect`), whose contents are a
  state `ρ`.

Every call that leaves the package is recorded in a trace, so that "called
once", "never called" and "called before" are statements about a run.
-/

namespace Whatdb

/-! ## Types the source takes from other packages -/

/-- The types `whatdb.go` names but does not declare: the result types of
package `whatapi`, the dynamic type behind `interface{}` arguments, and the
values a non-nil `error` can hold. -/
structure Types where
  Err : Type
  Any : Type
  Account : Type
  Mailbox : Type
  Conversation : Type
  Notifications : Type
  Announcements : Type
  Subscriptions : Type
  Categories : Type
  Forum : Type
  Thread : Type
  ArtistBookmarks : Type
  TorrentBookmarks : Type
  Artist : Type
  Request : Type
  GetTorrentStruct : Type
  TorrentGroup : Type
  TorrentSearch : Type
  RequestsSearch : Type
  UserSearch : Type
  TopTenTorrents : Type
  TopTenTags : Type
  TopTenUsers : Type
  SimilarArtists : Type

/-- Go's `error`: `none` is the nil error. -/
abbrev error (T : Types) : Type := Option T.Err

/-- Go's `url.Values`: keys with their lists of values. -/
abbrev Values : Type := List (String × List String)

/-! ## The method set (interface `WhatDB`, lines 29-61) -/

/-- A method of the interface together with its arguments, in the order the
signature lists them. -/
inductive Call (T : Types) : Type where
  | GetJSON (requestURL : String) (responseObj : T.Any)
  | Do (action : String) (params : Values) (result : T.Any)
  | CreateDownloadURL (id : Int)
  | Login (username password : String)
  | Logout
  | GetAccount
  | GetMailbox (params : Values)
  | GetConversation (id : Int)
  | GetNotifications (params : Values)
  | GetAnnouncements
  | GetSubscriptions (params : Values)
  | GetCategories
  | GetForum (id : Int) (params : Values)
  | GetThread (id : Int) (params : Values)
  | GetArtistBookmarks
  | GetTorrentBookmarks
  | GetArtist (id : Int) (params : Values)
  | GetRequest (id : Int) (params : Values)
  | GetTorrent (id : Int) (params : Values)
  | GetTorrentGroup (id : Int) (params : Values)
  | SearchTorrents (searchStr : String) (params : Values)
  | SearchRequests (searchStr : String) (params : Values)
  | SearchUsers (searchStr : String) (params : Values)
  | GetTopTenTorrents (params : Values)
  | GetTopTenTags (params : Values)
  | GetTopTenUsers (params : Values)
  | GetSimilarArtists (id limit : Int)
  | ParseHTML (s : String)

/-- What each method returns: `(result, error)`, or `error` alone. -/
def Call.Result {T : Types} : Call T → Type
  | .GetJSON _ _ => error T
  | .Do _ _ _ => error T
  | .CreateDownloadURL _ => String × error T
  | .Login _ _ => error T
  | .Logout => error T
  | .GetAccount => T.Account × error T
  | .GetMailbox _ => T.Mailbox × error T
  | .GetConversation _ => T.Conversation × error T
  | .GetNotifications _ => T.Notifications × error T
  | .GetAnnouncements => T.Announcements × error T
  | .GetSubscriptions _ => T.Subscriptions × error T
  | .GetCategories => T.Categories × error T
  | .GetForum _ _ => T.Forum × error T
  | .GetThread _ _ => T.Thread × error T
  | .GetArtistBookmarks => T.ArtistBookmarks × error T
  | .GetTorrentBookmarks => T.TorrentBookmarks × error T
  | .GetArtist _ _ => T.Artist × error T
  | .GetRequest _ _ => T.Request × error T
  | .GetTorrent _ _ => T.GetTorrentStruct × error T
  | .GetTorrentGroup _ _ => T.TorrentGroup × error T
  | .SearchTorrents _ _ => T.TorrentSearch × error T
  | .SearchRequests _ _ => T.RequestsSearch × error T
  | .SearchUsers _ _ => T.UserSearch × error T
  | .GetTopTenTorrents _ => T.TopTenTorrents × error T
  | .GetTopTenTags _ => T.TopTenTags × error T
  | .GetTopTenUsers _ => T.TopTenUsers × error T
  | .GetSimilarArtists _ _ => T.SimilarArtists × error T
  | .ParseHTML _ => String × error T

/-- The `error` component of a method's return value. -/
def Call.err {T : Types} : (call : Call T) → call.Result → error T
  | .GetJSON _ _ => fun r => r
  | .Do _ _ _ => fun r => r
  | .CreateDownloadURL _ => fun r => r.2
  | .Login _ _ => fun r => r
  | .Logout => fun r => r
  | .GetAccount => fun r => r.2
  | .GetMailbox _ => fun r => r.2
  | .GetConversation _ => fun r => r.2
  | .GetNotifications _ => fun r => r.2
  | .GetAnnouncements => fun r => r.2
  | .GetSubscriptions _ => fun r => r.2
  | .GetCategories => fun r => r.2
  | .GetForum _ _ => fun r => r.2
  | .GetThread _ _ => fun r => r.2
  | .GetArtistBookmarks => fun r => r.2
  | .GetTorrentBookmarks => fun r => r.2
  | .GetArtist _ _ => fun r => r.2
  | .GetRequest _ _ => fun r => r.2
  | .GetTorrent _ _ => fun r => r.2
  | .GetTorrentGroup _ _ => fun r => r.2
  | .SearchTorrents _ _ => fun r => r.2
  | .SearchRequests _ _ => fun r => r.2
  | .SearchUsers _ _ => fun r => r.2
  | .GetTopTenTorrents _ => fun r => r.2
  | .GetTopTenTags _ => fun r => r.2
  | .GetTopTenUsers _ => fun r => r.2
  | .GetSimilarArtists _ _ => fun r => r.2
  | .ParseHTML _ => fun r => r.2

/-! ## The collaborators -/

/-- A dynamic value of interface type `whatapi.WhatAPI`: it answers every
method of the method set.  `σ` is all the state its methods can read and
write (session, remote service, the objects behind `interface{}` arguments). -/
structure Client (T : Types) (σ : Type) where
  invoke : (call : Call T) → σ → call.Result × σ

/-- A value of interface type `whatapi.WhatAPI`: nil, or a client. -/
abbrev WhatAPI (T : Types) (σ : Type) : Type := Option (Client T σ)

/-- A call that left the package, with what it returned. -/
inductive Event (T : Types) : Type where
  | NewWhatAPI (url agent : String) (err : error T)
  | Connect (driverName dataSourceName : String) (err : error T)
  | call (c : Call T) (r : c.Result)

/-- Everything outside the facade: the state behind the API client, the
contents of the store, and the calls made so far (oldest first).  The client
talks to the remote service and the store is a local file: the two share no
state, so the calls of each act on its own component. -/
structure World (T : Types) (σ ρ : Type) where
  api : σ
  store : ρ
  trace : List (Event T)

/-- The two package-level constructors the source calls.  `δ` is the type of
an open store handle (the pointee of `*sqlx.DB`). -/
structure Env (T : Types) (σ ρ δ : Type) where
  NewWhatAPI : String → String → σ → (WhatAPI T σ × error T) × σ
  Connect : String → String → ρ → (Option δ × error T) × ρ

/-- A method call on an interface value of type `whatapi.WhatAPI`.  On a nil
interface the call panics (`none`); otherwise the client runs once on the
state behind it and the call is recorded. -/
def WhatAPI.call {T : Types} {σ ρ : Type} (i : WhatAPI T σ) (c : Call T) :
    World T σ ρ → Option (c.Result × World T σ ρ) :=
  fun world =>
    match i with
    | none => none
    | some client =>
      let out := client.invoke c world.api
      some (out.1, { world with
                      api := out.2
                      trace := world.trace ++ [Event.call c out.1] })

/-- The call `whatapi.NewWhatAPI(url, agent)`, recorded. -/
def Env.callNewWhatAPI {T : Types} {σ ρ δ : Type} (env : Env T σ ρ δ) (url agent : String) :
    World T σ ρ → (WhatAPI T σ × error T) × World T σ ρ :=
  fun world =>
    let out := env.NewWhatAPI url agent world.api
    (out.1, { world with
                api := out.2
                trace := world.trace ++ [Event.NewWhatAPI url agent out.1.2] })

/-- The call `sqlx.Connect(driverName, dataSourceName)`, recorded. -/
def Env.callConnect {T : Types} {σ ρ δ : Type} (env : Env T σ ρ δ)
    (driverName dataSourceName : String) :
    World T σ ρ → (Option δ × error T) × World T σ ρ :=
  fun world =>
    let out := env.Connect driverName dataSourceName world.store
    (out.1, { world with
                store := out.2
                trace := world.trace ++ [Event.Connect driverName dataSourceName out.1.2] })

/-! ## `WhatDBStruct` (lines 63-67) and its methods (lines 69-240) -/

/-- The struct: the embedded `whatapi.WhatAPI` and the `*sqlx.DB` handle
(`none` is the nil pointer).  The type `δ` of handles is a parameter: the
source calls no method of `sqlx.DB`. -/
structure WhatDBStruct (T : Types) (σ δ : Type) where
  WhatAPI : WhatAPI T σ
  DB : Option δ

/-- A method with receiver `w *WhatDBStruct`: from the world before the call
to the returned value, the struct the receiver points to after the call, and
the world after; `none` when the call panics. -/
abbrev Method (T : Types) (σ ρ δ α : Type) : Type :=
  World T σ ρ → Option (α × WhatDBStruct T σ δ × World T σ ρ)

/-- A method body of the form `return m`: the body assigns to no field of the
receiver, so the struct after the call is the struct before it. -/
def WhatDBStruct.ret {T : Types} {σ ρ δ α : Type} (w : WhatDBStruct T σ δ)
    (m : World T σ ρ → Option (α × World T σ ρ)) : Method T σ ρ δ α :=
  fun world =>
    match m world with
    | none => none
    | some (r, world1) => some (r, w, world1)

section Methods
variable {T : Types} {σ ρ δ : Type}

/-- Lines 70-72: `return w.WhatAPI.GetJSON(requestURL, responseObj)`. -/
def WhatDBStruct.GetJSON (w : WhatDBStruct T σ δ) (requestURL : String) (responseObj : T.Any) :
    Method T σ ρ δ (error T) :=
  w.ret (w.WhatAPI.call (.GetJSON requestURL responseObj))

/-- Lines 74-76: `return w.WhatAPI.Do(action, params, result)`. -/
def WhatDBStruct.Do (w : WhatDBStruct T σ δ) (action : String) (params : Values)
    (result : T.Any) : Method T σ ρ δ (error T) :=
  w.ret (w.WhatAPI.call (.Do action params result))

/-- Lines 79-81: `return w.WhatAPI.CreateDownloadURL(id)`. -/
def WhatDBStruct.CreateDownloadURL (w : WhatDBStruct T σ δ) (id : Int) :
    Method T σ ρ δ (String × error T) :=
  w.ret (w.WhatAPI.call (.CreateDownloadURL id))

/-- Lines 84-86: `return w.WhatAPI.Login(username, password)`. -/
def WhatDBStruct.Login (w : WhatDBStruct T σ δ) (username password : String) :
    Method T σ ρ δ (error T) :=
  w.ret (w.WhatAPI.call (.Login username password))

/-- Lines 89-91: `return w.WhatAPI.Logout()`. -/
def WhatDBStruct.Logout (w : WhatDBStruct T σ δ) :
    Method T σ ρ δ (error T) :=
  w.ret (w.WhatAPI.call .Logout)

/-- Lines 94-96: `return w.WhatAPI.GetAccount()`. -/
def WhatDBStruct.GetAccount (w : WhatDBStruct T σ δ) :
    Method T σ ρ δ (T.Account × error T) :=
  w.ret (w.WhatAPI.call .GetAccount)

/-- Lines 100-102: `return w.WhatAPI.GetMailbox(params)`. -/
def WhatDBStruct.GetMailbox (w : WhatDBStruct T σ δ) (params : Values) :
    Method T σ ρ δ (T.Mailbox × error T) :=
  w.ret (w.WhatAPI.call (.GetMailbox params))

/-- Lines 106-108: `return w.WhatAPI.GetConversation(id)`. -/
def WhatDBStruct.GetConversation (w : WhatDBStruct T σ δ) (id : Int) :
    Method T σ ρ δ (T.Conversation × error T) :=
  w.ret (w.WhatAPI.call (.GetConversation id))

/-- Lines 112-115: `return w.WhatAPI.GetNotifications(params)`. -/
def WhatDBStruct.GetNotifications (w : WhatDBStruct T σ δ) (params : Values) :
    Method T σ ρ δ (T.Notifications × error T) :=
  w.ret (w.WhatAPI.call (.GetNotifications params))

/-- Lines 118-120: `return w.WhatAPI.GetAnnouncements()`. -/
def WhatDBStruct.GetAnnouncements (w : WhatDBStruct T σ δ) :
    Method T σ ρ δ (T.Announcements × error T) :=
  w.ret (w.WhatAPI.call .GetAnnouncements)

/-- Lines 124-127: `return w.WhatAPI.GetSubscriptions(params)`. -/
def WhatDBStruct.GetSubscriptions (w : WhatDBStruct T σ δ) (params : Values) :
    Method T σ ρ δ (T.Subscriptions × error T) :=
  w.ret (w.WhatAPI.call (.GetSubscriptions params))

/-- Lines 130-132: `return w.WhatAPI.GetCategories()`. -/
def WhatDBStruct.GetCategories (w : WhatDBStruct T σ δ) :
    Method T σ ρ δ (T.Categories × error T) :=
  w.ret (w.WhatAPI.call .GetCategories)

/-- Lines 136-139: `return w.WhatAPI.GetForum(id, params)`. -/
def WhatDBStruct.GetForum (w : WhatDBStruct T σ δ) (id : Int) (params : Values) :
    Method T σ ρ δ (T.Forum × error T) :=
  w.ret (w.WhatAPI.call (.GetForum id params))

/-- Lines 143-146: `return w.WhatAPI.GetThread(id, params)`. -/
def WhatDBStruct.GetThread (w : WhatDBStruct T σ δ) (id : Int) (params : Values) :
    Method T σ ρ δ (T.Thread × error T) :=
  w.ret (w.WhatAPI.call (.GetThread id params))

/-- Lines 149-151: `return w.WhatAPI.GetArtistBookmarks()`. -/
def WhatDBStruct.GetArtistBookmarks (w : WhatDBStruct T σ δ) :
    Method T σ ρ δ (T.ArtistBookmarks × error T) :=
  w.ret (w.WhatAPI.call .GetArtistBookmarks)

/-- Lines 155-157: `return w.WhatAPI.GetTorrentBookmarks()`. -/
def WhatDBStruct.GetTorrentBookmarks (w : WhatDBStruct T σ δ) :
    Method T σ ρ δ (T.TorrentBookmarks × error T) :=
  w.ret (w.WhatAPI.call .GetTorrentBookmarks)

/-- Lines 161-164: `return w.WhatAPI.GetArtist(id, params)`. -/
def WhatDBStruct.GetArtist (w : WhatDBStruct T σ δ) (id : Int) (params : Values) :
    Method T σ ρ δ (T.Artist × error T) :=
  w.ret (w.WhatAPI.call (.GetArtist id params))

/-- Lines 168-171: `return w.WhatAPI.GetRequest(id, params)`. -/
def WhatDBStruct.GetRequest (w : WhatDBStruct T σ δ) (id : Int) (params : Values) :
    Method T σ ρ δ (T.Request × error T) :=
  w.ret (w.WhatAPI.call (.GetRequest id params))

/-- Lines 175-178: `return w.WhatAPI.GetTorrent(id, params)`. -/
def WhatDBStruct.GetTorrent (w : WhatDBStruct T σ δ) (id : Int) (params : Values) :
    Method T σ ρ δ (T.GetTorrentStruct × error T) :=
  w.ret (w.WhatAPI.call (.GetTorrent id params))

/-- Lines 182-185: `return w.WhatAPI.GetTorrentGroup(id, params)`. -/
def WhatDBStruct.GetTorrentGroup (w : WhatDBStruct T σ δ) (id : Int) (params : Values) :
    Method T σ ρ δ (T.TorrentGroup × error T) :=
  w.ret (w.WhatAPI.call (.GetTorrentGroup id params))

/-- Lines 189-192: `return w.WhatAPI.SearchTorrents(searchStr, params)`. -/
def WhatDBStruct.SearchTorrents (w : WhatDBStruct T σ δ) (searchStr : String) (params : Values) :
    Method T σ ρ δ (T.TorrentSearch × error T) :=
  w.ret (w.WhatAPI.call (.SearchTorrents searchStr params))

/-- Lines 196-199: `return w.WhatAPI.SearchRequests(searchStr, params)`. -/
def WhatDBStruct.SearchRequests (w : WhatDBStruct T σ δ) (searchStr : String) (params : Values) :
    Method T σ ρ δ (T.RequestsSearch × error T) :=
  w.ret (w.WhatAPI.call (.SearchRequests searchStr params))

/-- Lines 203-206: `return w.WhatAPI.SearchUsers(searchStr, params)`. -/
def WhatDBStruct.SearchUsers (w : WhatDBStruct T σ δ) (searchStr : String) (params : Values) :
    Method T σ ρ δ (T.UserSearch × error T) :=
  w.ret (w.WhatAPI.call (.SearchUsers searchStr params))

/-- Lines 210-213: `return w.WhatAPI.GetTopTenTorrents(params)`. -/
def WhatDBStruct.GetTopTenTorrents (w : WhatDBStruct T σ δ) (params : Values) :
    Method T σ ρ δ (T.TopTenTorrents × error T) :=
  w.ret (w.WhatAPI.call (.GetTopTenTorrents params))

/-- Lines 217-220: `return w.WhatAPI.GetTopTenTags(params)`. -/
def WhatDBStruct.GetTopTenTags (w : WhatDBStruct T σ δ) (params : Values) :
    Method T σ ρ δ (T.TopTenTags × error T) :=
  w.ret (w.WhatAPI.call (.GetTopTenTags params))

/-- Lines 224-227: `return w.WhatAPI.GetTopTenUsers(params)`. -/
def WhatDBStruct.GetTopTenUsers (w : WhatDBStruct T σ δ) (params : Values) :
    Method T σ ρ δ (T.TopTenUsers × error T) :=
  w.ret (w.WhatAPI.call (.GetTopTenUsers params))

/-- Lines 231-234: `return w.WhatAPI.GetSimilarArtists(id, limit)`. -/
def WhatDBStruct.GetSimilarArtists (w : WhatDBStruct T σ δ) (id limit : Int) :
    Method T σ ρ δ (T.SimilarArtists × error T) :=
  w.ret (w.WhatAPI.call (.GetSimilarArtists id limit))

/-- Lines 238-240: `return w.WhatAPI.ParseHTML(s)`. -/
def WhatDBStruct.ParseHTML (w : WhatDBStruct T σ δ) (s : String) :
    Method T σ ρ δ (String × error T) :=
  w.ret (w.WhatAPI.call (.ParseHTML s))

/-- Dynamic dispatch on a `*WhatDBStruct` held in a `WhatDB` interface value:
the method named by `call`, applied to its arguments. -/
def WhatDBStruct.perform (w : WhatDBStruct T σ δ) :
    (call : Call T) → Method T σ ρ δ call.Result
  | .GetJSON requestURL responseObj => w.GetJSON requestURL responseObj
  | .Do action params result => w.Do action params result
  | .CreateDownloadURL id => w.CreateDownloadURL id
  | .Login username password => w.Login username password
  | .Logout => w.Logout
  | .GetAccount => w.GetAccount
  | .GetMailbox params => w.GetMailbox params
  | .GetConversation id => w.GetConversation id
  | .GetNotifications params => w.GetNotifications params
  | .GetAnnouncements => w.GetAnnouncements
  | .GetSubscriptions params => w.GetSubscriptions params
  | .GetCategories => w.GetCategories
  | .GetForum id params => w.GetForum id params
  | .GetThread id params => w.GetThread id params
  | .GetArtistBookmarks => w.GetArtistBookmarks
  | .GetTorrentBookmarks => w.GetTorrentBookmarks
  | .GetArtist id params => w.GetArtist id params
  | .GetRequest id params => w.GetRequest id params
  | .GetTorrent id params => w.GetTorrent id params
  | .GetTorrentGroup id params => w.GetTorrentGroup id params
  | .SearchTorrents searchStr params => w.SearchTorrents searchStr params
  | .SearchRequests searchStr params => w.SearchRequests searchStr params
  | .SearchUsers searchStr params => w.SearchUsers searchStr params
  | .GetTopTenTorrents params => w.GetTopTenTorrents params
  | .GetTopTenTags params => w.GetTopTenTags params
  | .GetTopTenUsers params => w.GetTopTenUsers params
  | .GetSimilarArtists id limit => w.GetSimilarArtists id limit
  | .ParseHTML s => w.ParseHTML s

end Methods

/-! ## `NewWhatDB` (lines 11-26) -/

/-- A value of interface type `WhatDB` as `NewWhatDB` can return it: the nil
interface, or an interface holding a `*WhatDBStruct` (`ptr none` would be a
non-nil interface around a nil pointer). -/
inductive WhatDB (T : Types) (σ δ : Type) : Type where
  | nil
  | ptr (p : Option (WhatDBStruct T σ δ))

/-- The constructor: build the API client, and stop at its error; open the
store, and stop at its error; otherwise return the address of the new struct. -/
def NewWhatDB {T : Types} {σ ρ δ : Type} (env : Env T σ ρ δ) (url agent : String) :
    World T σ ρ → (WhatDB T σ δ × error T) × World T σ ρ :=
  fun world =>
    let r1 := env.callNewWhatAPI url agent world
    let api := r1.1.1
    let err := r1.1.2
    match err with
    | some e => ((WhatDB.nil, some e), r1.2)
    | none =>
      let r2 := env.callConnect "sqlite3" "./.whatapi.cache.db" r1.2
      let db := r2.1.1
      let err := r2.1.2
      match err with
      | some e => ((WhatDB.nil, some e), r2.2)
      | none =>
        let whatDB : WhatDBStruct T σ δ := { WhatAPI := api, DB := db }
        ((WhatDB.ptr (some whatDB), none), r2.2)

/-! ## Runs -/

/-- The calls recorded between two worlds of one run. -/
def World.since {T : Types} {σ ρ : Type} (before after : World T σ ρ) : List (Event T) :=
  after.trace.drop before.trace.length

/-- A sequence of method calls on one facade, each on the struct and the
world the previous one left; `none` when a call panics.  The returned values
are the ones recorded in the trace. -/
def WhatDBStruct.runAll {T : Types} {σ ρ δ : Type} (w : WhatDBStruct T σ δ) :
    List (Call T) → World T σ ρ → Option (WhatDBStruct T σ δ × World T σ ρ)
  | [], world => some (w, world)
  | call :: rest, world =>
    match w.perform call world with
    | none => none
    | some (_, w1, world1) => w1.runAll rest world1

/-! ## The store as the spec describes it -/

/-- Modelled from the spec: the cached response record of section 3, which
the source never declares: "the serialized result of a prior API call, keyed
by request fingerprint, with a capture timestamp".  `F` is the type of
fingerprints and `P` the type of serialized results. -/
structure CacheRecord (F P : Type) where
  fingerprint : F
  payload : P
  captured : Nat

/-- Modelled from the spec: the store of section 3 holds cached response
records; the source declares no schema for it, so it is a plain table of
rows. -/
abbrev Store (F P : Type) : Type := List (CacheRecord F P)

/-- Modelled from the spec: "the store never holds more than one record per
fingerprint". -/
def OnePerFingerprint {F P : Type} (store : Store F P) : Prop :=
  (store.map (fun r => r.fingerprint)).Nodup

instance {F P : Type} [DecidableEq F] (store : Store F P) :
    Decidable (OnePerFingerprint store) :=
  inferInstanceAs (Decidable (store.map (fun r : CacheRecord F P => r.fingerprint)).Nodup)

/-! ## Concrete collaborators, for evaluating the definitions -/

/-- A choice of the parameter types in which every value is a string. -/
def T0 : Types :=
  { Err := String, Any := String, Account := String, Mailbox := String,
    Conversation := String, Notifications := String, Announcements := String,
    Subscriptions := String, Categories := String, Forum := String, Thread := String,
    ArtistBookmarks := String, TorrentBookmarks := String, Artist := String,
    Request := String, GetTorrentStruct := String, TorrentGroup := String,
    TorrentSearch := String, RequestsSearch := String, UserSearch := String,
    TopTenTorrents := String, TopTenTags := String, TopTenUsers := String,
    SimilarArtists := String }

/-- What the demonstration client answers. -/
def demoReply : (call : Call T0) → call.Result
  | .GetJSON _ _ => none
  | .Do _ _ _ => none
  | .CreateDownloadURL id => ("torrents.php?action=download&id=" ++ toString id, none)
  | .Login _ password => if password = "hunter2" then none else some "bad credentials"
  | .Logout => none
  | .GetAccount => ("live GetAccount", none)
  | .GetMailbox _ => ("live GetMailbox", none)
  | .GetConversation _ => ("live GetConversation", none)
  | .GetNotifications _ => ("live GetNotifications", none)
  | .GetAnnouncements => ("live GetAnnouncements", none)
  | .GetSubscriptions _ => ("live GetSubscriptions", none)
  | .GetCategories => ("live GetCategories", none)
  | .GetForum _ _ => ("live GetForum", none)
  | .GetThread _ _ => ("live GetThread", none)
  | .GetArtistBookmarks => ("live GetArtistBookmarks", none)
  | .GetTorrentBookmarks => ("live GetTorrentBookmarks", none)
  | .GetArtist id _ => if id = 100 then ("live artist", none) else ("", some "no such artist")
  | .GetRequest _ _ => ("live GetRequest", none)
  | .GetTorrent _ _ => ("live GetTorrent", none)
  | .GetTorrentGroup _ _ => ("live GetTorrentGroup", none)
  | .SearchTorrents _ _ => ("live SearchTorrents", none)
  | .SearchRequests _ _ => ("live SearchRequests", none)
  | .SearchUsers _ _ => ("live SearchUsers", none)
  | .GetTopTenTorrents _ => ("live GetTopTenTorrents", none)
  | .GetTopTenTags _ => ("live GetTopTenTags", none)
  | .GetTopTenUsers _ => ("live GetTopTenUsers", none)
  | .GetSimilarArtists _ _ => ("live GetSimilarArtists", none)
  | .ParseHTML s => (s, none)

/-- A client whose state counts the requests it has served. -/
def demoClient : Client T0 Nat :=
  { invoke := fun call served => (demoReply call, served + 1) }

/-- Constructors that fail with the given errors, or succeed when given none. -/
def demoEnv (apiErr storeErr : error T0) : Env T0 Nat (Store String String) Nat :=
  { NewWhatAPI := fun _ _ served =>
      match apiErr with
      | some e => ((none, some e), served)
      | none => ((some demoClient, none), served)
    Connect := fun _ _ store =>
      match storeErr with
      | some e => ((none, some e), store)
      | none => ((some 1, none), store) }

/-- A facade around the demonstration client, with an open store handle. -/
def demoFacade : WhatDBStruct T0 Nat Nat :=
  { WhatAPI := some demoClient, DB := some 1 }

/-- A world whose store is the given table; nothing has been called yet. -/
def demoWorld (store : Store String String) : World T0 Nat (Store String String) :=
  { api := 0, store := store, trace := [] }

/-- A store holding one record for `GetArtist(100, {})`, captured at time 0,
under the fingerprint the scheme `fp` gives that request. -/
def hitStore (fp : Call T0 → String) : Store String String :=
  [{ fingerprint := fp (Call.GetArtist 100 []), payload := "cached artist", captured := 0 }]

/-- A store holding one record. -/
def soloStore : Store String String :=
  [{ fingerprint := "artist?id=100", payload := "first", captured := 0 }]

/-! ## Shared lemmas -/

section Lemmas
variable {T : Types} {σ ρ δ : Type}

/-- Every method of the struct is the one body `return w.WhatAPI.M(args)`. -/
theorem perform_eq_ret (w : WhatDBStruct T σ δ) (call : Call T) :
    (w.perform call : Method T σ ρ δ call.Result) = w.ret (w.WhatAPI.call call) := by
  cases call <;> rfl

/-- On a facade around a client, a method runs the client once. -/
theorem perform_client (c : Client T σ) (d : Option δ) (call : Call T) (world : World T σ ρ) :
    (WhatDBStruct.mk (some c) d).perform call world =
      some ((c.invoke call world.api).1, WhatDBStruct.mk (some c) d,
        { world with
            api := (c.invoke call world.api).2
            trace := world.trace ++ [Event.call call (c.invoke call world.api).1] }) := by
  rw [perform_eq_ret]; rfl

/-- On a facade whose embedded interface is nil, every method panics. -/
theorem perform_nil (d : Option δ) (call : Call T) (world : World T σ ρ) :
    (WhatDBStruct.mk (none : WhatAPI T σ) d).perform call world = none := by
  rw [perform_eq_ret]; rfl

/-- A run of any sequence of calls on a facade around a client does not
panic, keeps the struct, keeps the store, and does the same whatever the store
contains. -/
theorem runAll_client (c : Client T σ) (d : Option δ) (calls : List (Call T)) :
    ∀ world : World T σ ρ, ∃ world1 : World T σ ρ,
      (WhatDBStruct.mk (some c) d).runAll calls world = some (WhatDBStruct.mk (some c) d, world1)
      ∧ world1.store = world.store
      ∧ ∀ store2 : ρ,
          (WhatDBStruct.mk (some c) d).runAll calls { world with store := store2 }
            = some (WhatDBStruct.mk (some c) d, { world1 with store := store2 }) := by
  induction calls with
  | nil => intro world; exact ⟨world, rfl, rfl, fun _ => rfl⟩
  | cons call rest ih =>
    intro world
    obtain ⟨world1, hrun, hstore, hany⟩ := ih
      { world with
          api := (c.invoke call world.api).2
          trace := world.trace ++ [Event.call call (c.invoke call world.api).1] }
    refine ⟨world1, ?_, hstore, fun store2 => ?_⟩
    · simp only [WhatDBStruct.runAll, perform_client]
      exact hrun
    · simp only [WhatDBStruct.runAll, perform_client]
      exact hany store2

end Lemmas

/-! ## The claims -/

section Claims
variable {T : Types} {σ ρ δ : Type}

/-- C1 (pure delegation).  On the facade `WhatDBStruct{WhatAPI: c, DB: d}`,
every one of the 28 methods returns, and leaves behind the client, exactly
what the same method of `c` returns and leaves for the same arguments in the
same order.  In particular `GetArtist(100, {})` returns what
`c.GetArtist(100, {})` returns, and `GetSimilarArtists(id, limit)` what
`c.GetSimilarArtists(id, limit)` returns. -/
theorem facade_delegates (c : Client T σ) (d : Option δ) (world : World T σ ρ) :
    (∀ call : Call T,
      ((WhatDBStruct.mk (some c) d).perform call world).map (fun out => (out.1, out.2.2.api))
        = some (c.invoke call world.api))
    ∧ (((WhatDBStruct.mk (some c) d).GetArtist 100 [] world).map (fun out => out.1)
        = some (c.invoke (Call.GetArtist 100 []) world.api).1)
    ∧ (∀ id limit : Int,
        ((WhatDBStruct.mk (some c) d).GetSimilarArtists id limit world).map (fun out => out.1)
          = some (c.invoke (Call.GetSimilarArtists id limit) world.api).1) := by
  refine ⟨fun call => ?_, rfl, fun _ _ => rfl⟩
  rw [perform_client]; rfl

/-- C2 (error propagation without retry).  A facade method returns the very
error the client's method returned, so it is non-nil exactly when the
client's is; the run records one call of that method, the world behind the
client being the one a single invocation leaves; and the value returned is
the same whatever the store holds, so none comes from the store. -/
theorem facade_error_is_client_error (c : Client T σ) (d : Option δ) (call : Call T)
    (world : World T σ ρ) :
    ∃ out, (WhatDBStruct.mk (some c) d).perform call world = some out
      ∧ call.err out.1 = call.err (c.invoke call world.api).1
      ∧ (call.err out.1 ≠ none ↔ call.err (c.invoke call world.api).1 ≠ none)
      ∧ World.since world out.2.2 = [Event.call call (c.invoke call world.api).1]
      ∧ out.2.2.api = (c.invoke call world.api).2
      ∧ ∀ store2 : ρ,
          ((WhatDBStruct.mk (some c) d).perform call { world with store := store2 }).map
            (fun out2 => out2.1) = some out.1 := by
  refine ⟨_, perform_client c d call world, rfl, Iff.rfl, ?_, rfl, fun store2 => ?_⟩
  · simp [World.since]
  · rw [perform_client]; rfl

/-- C4 (no store access).  A facade method leaves the store as it found it
and the struct's two fields as they were, records nothing but the one client
call, and returns the same value and leaves the same client state whatever
the store handle (nil included) and whatever the store contains. -/
theorem facade_ignores_store (c : Client T σ) (d d2 : Option δ) (call : Call T)
    (world : World T σ ρ) (store2 : ρ) :
    ∃ out out2,
      (WhatDBStruct.mk (some c) d).perform call world = some out
      ∧ (WhatDBStruct.mk (some c) d2).perform call { world with store := store2 } = some out2
      ∧ out.2.2.store = world.store
      ∧ out2.2.2.store = store2
      ∧ out.2.1 = WhatDBStruct.mk (some c) d
      ∧ World.since world out.2.2 = [Event.call call out.1]
      ∧ out2.1 = out.1
      ∧ out2.2.2.api = out.2.2.api := by
  refine ⟨_, _, perform_client c d call world, perform_client c d2 call _, rfl, rfl, rfl, ?_,
    rfl, rfl⟩
  simp [World.since]

/-- C5 (Login and Logout mirror the client).  `Login(username, password)`
returns the error of the client's `Login(username, password)`, nil exactly
when that one is nil, and `Logout()` the error of the client's `Logout()`;
each records the one client call only, leaves the store as it was, returns
the same whatever the store holds, and leaves the struct's fields as they
were (the struct has no other field to keep a credential in). -/
theorem login_logout_mirror_client (c : Client T σ) (d : Option δ) (username password : String)
    (world : World T σ ρ) :
    (∃ out, (WhatDBStruct.mk (some c) d).Login username password world = some out
      ∧ out.1 = (c.invoke (Call.Login username password) world.api).1
      ∧ (out.1 = none ↔ (c.invoke (Call.Login username password) world.api).1 = none)
      ∧ out.2.1 = WhatDBStruct.mk (some c) d
      ∧ out.2.2.store = world.store
      ∧ World.since world out.2.2 = [Event.call (Call.Login username password) out.1]
      ∧ ∀ store2 : ρ,
          ((WhatDBStruct.mk (some c) d).Login username password
            { world with store := store2 }).map (fun out2 => out2.1) = some out.1)
    ∧ (∃ out, (WhatDBStruct.mk (some c) d).Logout world = some out
      ∧ out.1 = (c.invoke Call.Logout world.api).1
      ∧ out.2.1 = WhatDBStruct.mk (some c) d
      ∧ out.2.2.store = world.store
      ∧ World.since world out.2.2 = [Event.call Call.Logout out.1]
      ∧ ∀ store2 : ρ,
          ((WhatDBStruct.mk (some c) d).Logout { world with store := store2 }).map
            (fun out2 => out2.1) = some out.1) := by
  refine ⟨⟨_, rfl, rfl, Iff.rfl, rfl, rfl, ?_, fun _ => rfl⟩,
    ⟨_, rfl, rfl, rfl, rfl, ?_, fun _ => rfl⟩⟩ <;>
    simp [World.since]

/-- C3 (the cache the doc comments announce is not there).  The store holds
a record for `GetArtist(100, {})` with payload "cached artist", captured at
time 0 (not stale at time 0 under any window), under the fingerprint of that
request, whatever the fingerprint scheme.  The facade's `GetArtist(100, {})`
neither returns that record nor leaves the client uncalled: it returns the
client's "live artist" and records a client call.  From an empty store, a
successful `GetArtist(100, {})` leaves the store empty, and the same call
made twice reaches the client twice. -/
theorem cached_record_not_served :
    (¬ ∃ (fp : Call T0 → String) (out : _),
        demoFacade.GetArtist 100 [] (demoWorld (hitStore fp)) = some out
        ∧ (out.1 = ("cached artist", none) ∨ out.2.2.trace = []))
    ∧ (∃ out, demoFacade.GetArtist 100 [] (demoWorld []) = some out
        ∧ out.1 = ("live artist", none) ∧ out.2.2.store = [])
    ∧ (∃ out, demoFacade.runAll [Call.GetArtist 100 [], Call.GetArtist 100 []] (demoWorld [])
          = some out
        ∧ out.2.store = []
        ∧ out.2.api = 2
        ∧ out.2.trace = [Event.call (Call.GetArtist 100 []) ("live artist", none),
                         Event.call (Call.GetArtist 100 []) ("live artist", none)]) := by
  refine ⟨?_, ⟨_, rfl, rfl, rfl⟩, ⟨_, rfl, rfl, rfl, rfl⟩⟩
  rintro ⟨fp, out, hrun, hout⟩
  have h : demoFacade.GetArtist 100 [] (demoWorld (hitStore fp))
      = some (("live artist", none), demoFacade,
          { api := 1, store := hitStore fp,
            trace := [Event.call (Call.GetArtist 100 []) ("live artist", none)] }) := rfl
  rw [h] at hrun
  cases hrun
  rcases hout with h1 | h2
  · simp at h1
  · simp at h2

/-- C8 (cache invariant).  "At most one record per fingerprint" is an
invariant of every run: from any store state that satisfies it, after every
sequence of facade calls (hence also after every initial part of one) the
store still satisfies it, the store being the one the run started from.  And
no call returns a record taken from the store, past its staleness window or
otherwise: the values returned (those the trace records) and the state
behind the client are the same whatever the store contains. -/
theorem store_untouched_by_any_run {F P : Type} (c : Client T σ) (d : Option δ)
    (calls : List (Call T)) (world : World T σ (Store F P))
    (h : OnePerFingerprint world.store) :
    ∃ out, (WhatDBStruct.mk (some c) d).runAll calls world = some out
      ∧ out.2.store = world.store
      ∧ OnePerFingerprint out.2.store
      ∧ ∀ store2 : Store F P, ∃ out2,
          (WhatDBStruct.mk (some c) d).runAll calls { world with store := store2 } = some out2
          ∧ out2.2.trace = out.2.trace
          ∧ out2.2.api = out.2.api := by
  obtain ⟨world1, hrun, hstore, hany⟩ := runAll_client c d calls world
  refine ⟨_, hrun, hstore, ?_, fun store2 => ⟨_, hany store2, rfl, rfl⟩⟩
  show OnePerFingerprint world1.store
  rw [hstore]; exact h

/-- C8 at a store with one record and two calls of `GetArtist(100, {})`. -/
theorem store_untouched_by_any_run_witness :
    OnePerFingerprint (demoWorld soloStore).store
    ∧ ∃ out, demoFacade.runAll [Call.GetArtist 100 [], Call.GetArtist 100 []]
          (demoWorld soloStore) = some out
        ∧ out.2.store = (demoWorld soloStore).store
        ∧ OnePerFingerprint out.2.store
        ∧ ∀ store2 : Store String String, ∃ out2,
            demoFacade.runAll [Call.GetArtist 100 [], Call.GetArtist 100 []]
              { demoWorld soloStore with store := store2 } = some out2
            ∧ out2.2.trace = out.2.trace
            ∧ out2.2.api = out.2.api :=
  ⟨by simp [OnePerFingerprint, demoWorld, soloStore],
   store_untouched_by_any_run demoClient (some 1) _ (demoWorld soloStore)
     (by simp [OnePerFingerprint, demoWorld, soloStore])⟩

/-- C6 (the store cannot be opened).  If the run of `NewWhatDB(url, agent)`
opens the store and the open fails with error `e`, then `NewWhatDB` returns
`(nil, e)`, and the failed open is the last call of the run: the run is the
construction of the API client followed by that open, and no struct is
built. -/
theorem NewWhatDB_store_open_fails (env : Env T σ ρ δ) (url agent : String)
    (world : World T σ ρ) (driverName dataSourceName : String) (e : T.Err)
    (h : Event.Connect driverName dataSourceName (some e)
          ∈ World.since world (NewWhatDB env url agent world).2) :
    (NewWhatDB env url agent world).1 = (WhatDB.nil, some e)
    ∧ World.since world (NewWhatDB env url agent world).2
        = [Event.NewWhatAPI url agent none,
           Event.Connect "sqlite3" "./.whatapi.cache.db" (some e)] := by
  unfold NewWhatDB Env.callNewWhatAPI Env.callConnect World.since at *
  cases h1 : (env.NewWhatAPI url agent world.api).1.2 with
  | some e1 => simp [h1] at h
  | none =>
    cases h2 : (env.Connect "sqlite3" "./.whatapi.cache.db" world.store).1.2 with
    | some e2 =>
      simp [h1, h2] at h ⊢
      simp [h.2.2]
    | none => simp [h1, h2] at h

/-- C6 at constructors of which the second fails with "unable to open
database file". -/
theorem NewWhatDB_store_open_fails_witness :
    Event.Connect "sqlite3" "./.whatapi.cache.db" (some "unable to open database file")
        ∈ World.since (demoWorld [])
            (NewWhatDB (demoEnv none (some "unable to open database file"))
              "https://what.example" "whatdb" (demoWorld [])).2
    ∧ (NewWhatDB (demoEnv none (some "unable to open database file"))
          "https://what.example" "whatdb" (demoWorld [])).1
        = (WhatDB.nil, some "unable to open database file")
    ∧ World.since (demoWorld [])
          (NewWhatDB (demoEnv none (some "unable to open database file"))
            "https://what.example" "whatdb" (demoWorld [])).2
        = [Event.NewWhatAPI "https://what.example" "whatdb" none,
           Event.Connect "sqlite3" "./.whatapi.cache.db"
             (some "unable to open database file")] :=
  have h : Event.Connect "sqlite3" "./.whatapi.cache.db" (some "unable to open database file")
      ∈ World.since (demoWorld [])
          (NewWhatDB (demoEnv none (some "unable to open database file"))
            "https://what.example" "whatdb" (demoWorld [])).2 := by
    simp [World.since, NewWhatDB, Env.callNewWhatAPI, Env.callConnect, demoEnv, demoWorld]
  ⟨h, NewWhatDB_store_open_fails _ _ _ _ _ _ _ h⟩

/-- C7 (the API client cannot be built).  If `whatapi.NewWhatAPI(url, agent)`
fails with error `e`, then `NewWhatDB(url, agent)` returns `(nil, e)`; the
run is that one call, so the store is never opened, and the store is as it
was. -/
theorem NewWhatDB_api_fails (env : Env T σ ρ δ) (url agent : String) (world : World T σ ρ)
    (e : T.Err) (h : (env.NewWhatAPI url agent world.api).1.2 = some e) :
    (NewWhatDB env url agent world).1 = (WhatDB.nil, some e)
    ∧ World.since world (NewWhatDB env url agent world).2 = [Event.NewWhatAPI url agent (some e)]
    ∧ (NewWhatDB env url agent world).2.store = world.store := by
  unfold NewWhatDB Env.callNewWhatAPI Env.callConnect World.since
  simp [h]

/-- C7 at constructors of which the first fails with "dial tcp: no such
host" (and the second would succeed). -/
theorem NewWhatDB_api_fails_witness :
    ((demoEnv (some "dial tcp: no such host") none).NewWhatAPI "https://nowhere.example"
        "whatdb" (demoWorld []).api).1.2 = some "dial tcp: no such host"
    ∧ (NewWhatDB (demoEnv (some "dial tcp: no such host") none) "https://nowhere.example"
          "whatdb" (demoWorld [])).1 = (WhatDB.nil, some "dial tcp: no such host")
    ∧ World.since (demoWorld [])
          (NewWhatDB (demoEnv (some "dial tcp: no such host") none) "https://nowhere.example"
            "whatdb" (demoWorld [])).2
        = [Event.NewWhatAPI "https://nowhere.example" "whatdb" (some "dial tcp: no such host")]
    ∧ (NewWhatDB (demoEnv (some "dial tcp: no such host") none) "https://nowhere.example"
          "whatdb" (demoWorld [])).2.store = (demoWorld []).store :=
  ⟨rfl, NewWhatDB_api_fails _ _ _ _ _ rfl⟩

/-- C9 (successful construction).  If `whatapi.NewWhatAPI(url, agent)`
returns `api` with a nil error and `sqlx.Connect("sqlite3",
"./.whatapi.cache.db")` returns `db` with a nil error, then
`NewWhatDB(url, agent)` returns a nil error and the address of a struct whose
`WhatAPI` field is `api` and whose `DB` field is `db`.  The run is those two
calls, with `url` and `agent` in that order and with the fixed driver and
path, whatever `url` and `agent` are. -/
theorem NewWhatDB_wires_collaborators (env : Env T σ ρ δ) (url agent : String)
    (world : World T σ ρ) (api : WhatAPI T σ) (db : Option δ)
    (hapi : (env.NewWhatAPI url agent world.api).1 = (api, none))
    (hdb : (env.Connect "sqlite3" "./.whatapi.cache.db" world.store).1 = (db, none)) :
    (NewWhatDB env url agent world).1
        = (WhatDB.ptr (some { WhatAPI := api, DB := db }), none)
    ∧ World.since world (NewWhatDB env url agent world).2
        = [Event.NewWhatAPI url agent none,
           Event.Connect "sqlite3" "./.whatapi.cache.db" none] := by
  unfold NewWhatDB Env.callNewWhatAPI Env.callConnect World.since
  simp [hapi, hdb]

/-- C9 at constructors that both succeed. -/
theorem NewWhatDB_wires_collaborators_witness :
    ((demoEnv none none).NewWhatAPI "https://what.example" "whatdb" (demoWorld []).api).1
        = (some demoClient, none)
    ∧ ((demoEnv none none).Connect "sqlite3" "./.whatapi.cache.db" (demoWorld []).store).1
        = (some 1, none)
    ∧ (NewWhatDB (demoEnv none none) "https://what.example" "whatdb" (demoWorld [])).1
        = (WhatDB.ptr (some { WhatAPI := some demoClient, DB := some 1 }), none)
    ∧ World.since (demoWorld [])
          (NewWhatDB (demoEnv none none) "https://what.example" "whatdb" (demoWorld [])).2
        = [Event.NewWhatAPI "https://what.example" "whatdb" none,
           Event.Connect "sqlite3" "./.whatapi.cache.db" none] :=
  ⟨rfl, rfl, NewWhatDB_wires_collaborators _ _ _ _ _ _ rfl rfl⟩

/-- C10 (a facade or an error, never both, never neither).  `NewWhatDB`
returns either the nil interface with a non-nil error, or an interface
holding the address of a struct with a nil error; it never returns an
interface holding a nil pointer.  Its run starts with the construction of the
API client, and the store is opened, if at all, after that construction
returned a nil error. -/
theorem NewWhatDB_facade_xor_error (env : Env T σ ρ δ) (url agent : String)
    (world : World T σ ρ) :
    (((NewWhatDB env url agent world).1.1 = WhatDB.nil
        ∧ (NewWhatDB env url agent world).1.2 ≠ none)
      ∨ ((∃ s, (NewWhatDB env url agent world).1.1 = WhatDB.ptr (some s))
        ∧ (NewWhatDB env url agent world).1.2 = none))
    ∧ (NewWhatDB env url agent world).1.1 ≠ WhatDB.ptr none
    ∧ ((∃ e, World.since world (NewWhatDB env url agent world).2
              = [Event.NewWhatAPI url agent (some e)])
      ∨ (∃ err, World.since world (NewWhatDB env url agent world).2
              = [Event.NewWhatAPI url agent none,
                 Event.Connect "sqlite3" "./.whatapi.cache.db" err])) := by
  unfold NewWhatDB Env.callNewWhatAPI Env.callConnect World.since
  cases h1 : (env.NewWhatAPI url agent world.api).1.2 with
  | some e1 => simp [h1]
  | none =>
    cases h2 : (env.Connect "sqlite3" "./.whatapi.cache.db" world.store).1.2 with
    | some e2 => simp [h1, h2]
    | none => simp [h1, h2]

end Claims

end Whatdb
